import Mathlib

/-!
# Verification of the go-parser Ethereum parser/subscription engine

Shallow embedding of the Go sources of the repository:
* `src/main.go` — latest evolution (namespace `MainGo`): `MemoryStorage`
  registry; engine methods return bare values and log failures.
* `src/unnamed/part_001`, first snapshot (namespace `V1`): engine methods
  return `(value, error)` pairs; subscription gating in the engine.
* `src/unnamed/part_001`, second snapshot (namespace `V2`): registry is a
  plain Go map on the parser; `UnsubscribeAddress` exists; no gating or
  emptiness checks in the engine.

Go strings are modelled as Lean `String`s viewed as their character lists
(`String.data`); all strings appearing in the program and its protocol are
ASCII, where Go's byte indexing and character indexing coincide.  Go's
`map[string]bool` is modelled as a function `String → Option Bool`
(`none` = key absent; Go indexing of an absent key yields the zero value
`false`).  The HTTP/JSON transport is modelled as a function from the
JSON-RPC request to the observable wire outcome; each engine operation also
returns the list of requests it issued and the lines it printed, so that
"no network call is attempted" and "the error is merely logged" are
stateable.  A Go runtime panic (slice bounds violation) is modelled by the
`GoResult.panics` outcome.
-/

/-- A JSON-RPC parameter as used by this program: a string or a boolean
(`ParseToAnySlice` only ever receives these two shapes). -/
inductive Param where
  | str (s : String)
  | flag (b : Bool)
deriving DecidableEq, Repr

/-- A JSON-RPC request: method name and parameter list (the request id is
always 1 and the version always "2.0" in `callRPCMethod`). -/
structure Request where
  method : String
  params : List Param
deriving DecidableEq, Repr

/-- `Transaction` struct of the Go sources (fields kept with their Go names). -/
structure Transaction where
  Hash : String
  BlockNumber : String
  From : String
  To : String
  Value : String
deriving DecidableEq, Repr

/-- `Block` struct of the Go sources. -/
structure Block where
  Hash : String
  Transactions : List Transaction
deriving DecidableEq, Repr

/-- The `result` payload of an RPC envelope, as decodable by the two call
sites: a JSON string (for `eth_blockNumber`), a block object (for
`eth_getBlockByNumber`), or anything else (undecodable into either). -/
inductive Payload where
  | str (s : String)
  | blk (b : Block)
  | other
deriving DecidableEq, Repr

/-- `RPCResponse` struct: the generic JSON-RPC envelope.  The Go `Error`
field has type `interface{}`; we model it by its rendered string
representation (`none` = JSON null / absent). -/
structure RPCResponse where
  Result : Payload
  Error : Option String
  ID : Int
deriving DecidableEq, Repr

/-- Observable outcome of one HTTP POST to the node, as seen by
`callRPCMethod`: the POST itself fails, the response body fails to decode
as an `RPCResponse` envelope, or an envelope is obtained. -/
inductive Wire where
  | postFail
  | decodeFail
  | envelope (r : RPCResponse)
deriving DecidableEq, Repr

/-- A node (the HTTP endpoint together with the network): maps each issued
request to its wire outcome. -/
def Node : Type := Request → Wire

/-- The failures `callRPCMethod` can return, in the order the Go code
checks them: transport failure from `http.Post`, envelope decode failure,
a non-null `error` field in the envelope (with its string representation),
and failure to unmarshal the `result` payload into the typed result. -/
inductive CallError where
  | transport
  | decodeEnvelope
  | rpc (msg : String)
  | parseResult
deriving DecidableEq, Repr

/-- `callRPCMethod` of the Go sources (identical in all three evolutions):
POST the request, decode the envelope, fail with the RPC error if the
envelope's `error` field is non-null, otherwise unmarshal the `result`
payload into the operation-specific typed result via `decode`. -/
def callRPCMethod {α : Type} (node : Node) (req : Request)
    (decode : Payload → Option α) : Except CallError α :=
  match node req with
  | .postFail => .error .transport
  | .decodeFail => .error .decodeEnvelope
  | .envelope r =>
    match r.Error with
    | some msg => .error (.rpc msg)
    | none =>
      match decode r.Result with
      | none => .error .parseResult
      | some v => .ok v

/-- `json.Unmarshal` of the result payload into a `*string`. -/
def decodeHexString : Payload → Option String
  | .str s => some s
  | _ => none

/-- `json.Unmarshal` of the result payload into a `*Block`. -/
def decodeBlock : Payload → Option Block
  | .blk b => some b
  | _ => none

/-! ## The Go map `map[string]bool` -/

/-- The subscriber map: `none` means the key is absent. -/
def Subscribers : Type := String → Option Bool

/-- Go map assignment `m[k] = v`. -/
def mapAssign (m : Subscribers) (k : String) (v : Bool) : Subscribers :=
  fun x => if x = k then some v else m x

/-- Go `delete(m, k)`. -/
def mapDelete (m : Subscribers) (k : String) : Subscribers :=
  fun x => if x = k then none else m x

/-- Go map indexing `m[k]`: the zero value `false` when the key is absent. -/
def mapIndex (m : Subscribers) (k : String) : Bool :=
  (m k).getD false

/-- `MemoryStorage.SetSubscriber`: sets `subscribers[address] = true` and
returns a `nil` error (`none`), paired with the updated map. -/
def SetSubscriber (m : Subscribers) (address : String) :
    Subscribers × Option String :=
  (mapAssign m address true, none)

/-- `MemoryStorage.IsSubscriber`: the two-valued map lookup, returning
`false` when the key is absent, else the stored value. -/
def IsSubscriber (m : Subscribers) (address : String) : Bool :=
  match m address with
  | none => false
  | some value => value

/-! ## Hex parsing (`strconv.ParseUint(_, 16, 64)` and `ParseHexUint64`) -/

/-- Is `c` one of `0-9`, `a-f`, `A-F`? (`strconv` with base 16). -/
def isHexDigit (c : Char) : Bool :=
  (48 ≤ c.toNat && c.toNat ≤ 57) ||
  (97 ≤ c.toNat && c.toNat ≤ 102) ||
  (65 ≤ c.toNat && c.toNat ≤ 70)

/-- Numeric value of a hex digit character. -/
def hexVal (c : Char) : Nat :=
  if 48 ≤ c.toNat && c.toNat ≤ 57 then c.toNat - 48
  else if 97 ≤ c.toNat && c.toNat ≤ 102 then c.toNat - 87
  else if 65 ≤ c.toNat && c.toNat ≤ 70 then c.toNat - 55
  else 0

/-- Base-16 value of a digit string. -/
def hexListVal (cs : List Char) : Nat :=
  cs.foldl (fun a c => a * 16 + hexVal c) 0

/-- `strconv.ParseUint(s, 16, 64)`: error (`none`) on the empty string, on
any character outside `0-9a-fA-F` (base 16 given explicitly, so no sign,
no `0x`, no underscores), and on overflow of 64 bits (`ErrRange`);
otherwise the base-16 value. -/
def parseUintHex64 (cs : List Char) : Option Nat :=
  if cs = [] then none
  else if cs.all isHexDigit then
    if hexListVal cs < 2 ^ 64 then some (hexListVal cs) else none
  else none

/-- Outcome of `ParseHexUint64`: a Go runtime panic (slice bounds out of
range), a returned error, or a returned value. -/
inductive ParseOutcome where
  | panics
  | err
  | ok (v : Nat)
deriving DecidableEq, Repr

/-- `ParseHexUint64` of the Go sources: `strconv.ParseUint(hexStr[2:], 16, 64)`.
The slice `hexStr[2:]` panics when the string is shorter than 2; otherwise
the first two characters are dropped unconditionally (they are never
compared against `"0x"`). -/
def ParseHexUint64 (hexStr : String) : ParseOutcome :=
  if hexStr.data.length < 2 then .panics
  else
    match parseUintHex64 (hexStr.data.drop 2) with
    | none => .err
    | some v => .ok v

/-- `fmt.Sprintf("0x%x", n)` without the `0x`: lowercase hex digits of `n`. -/
def natToHex (n : Nat) : String :=
  ⟨Nat.toDigits 16 n⟩

/-! ## Engine plumbing shared by the evolutions -/

/-- Result of running a Go function: either it panics (unwound, crashing
the program, since nothing recovers) or it returns a value. -/
inductive GoResult (α : Type) where
  | panics
  | ret (v : α)
deriving DecidableEq, Repr

/-- The filtering condition of the `GetTransactions` loop:
`transaction.From == address || transaction.To == address`. -/
def matchTx (address : String) (t : Transaction) : Bool :=
  t.From == address || t.To == address

/-- The request issued by `GetCurrentBlock`. -/
def blockNumberReq : Request :=
  ⟨"eth_blockNumber", []⟩

/-- The request issued by `GetTransactions` for block `blockNumber`:
`ParseToAnySlice(fmt.Sprintf("0x%x", blockNumber), true)`. -/
def getBlockReq (blockNumber : Nat) : Request :=
  ⟨"eth_getBlockByNumber", [.str ("0x" ++ natToHex blockNumber), .flag true]⟩

/-- Rendering of a `CallError` as interpolated by `fmt.Printf("error: %v", err)`
(the transport and envelope messages come from the Go runtime; only their
presence matters to the engine). -/
def errString : CallError → String
  | .transport => "Post: network error"
  | .decodeEnvelope => "invalid JSON-RPC response"
  | .rpc msg => "JSON-RPC error: " ++ msg
  | .parseResult => "failed to parse response details"

/-- The `(value, error)` failures of the part_001 engines: a `callRPCMethod`
failure, a `strconv` parse failure from `ParseHexUint64`, or (first
snapshot only) the not-subscribed rejection. -/
inductive EngineError where
  | call (e : CallError)
  | parse
  | notSubscribed (address : String)
deriving DecidableEq, Repr

/-! ## The `src/main.go` evolution -/

namespace MainGo

/-- `GetCurrentBlock` of `src/main.go`: on any failure of the RPC call or
of hex parsing it prints `error: ...` and returns the substitute value 0;
the return type carries no error.  Result: (returned value or panic,
requests issued, lines printed). -/
def GetCurrentBlock (node : Node) :
    GoResult Nat × List Request × List String :=
  match callRPCMethod node blockNumberReq decodeHexString with
  | .error e => (.ret 0, [blockNumberReq], ["error: " ++ errString e])
  | .ok blockNumberHex =>
    match ParseHexUint64 blockNumberHex with
    | .panics => (.panics, [blockNumberReq], [])
    | .err => (.ret 0, [blockNumberReq], ["error: parse failure"])
    | .ok blockNumber => (.ret blockNumber, [blockNumberReq], [])

/-- `GetTransactions` of `src/main.go`: rejects the empty address and an
unsubscribed address by printing a message and returning the empty slice;
treats a current block number of 0 (the substitute value of a failed
`GetCurrentBlock`) the same way; otherwise fetches the block and keeps, in
order, the transactions whose `From` or `To` equals the address.  Result:
(returned slice or panic, registry after the call, requests issued, lines
printed). -/
def GetTransactions (node : Node) (subs : Subscribers) (address : String) :
    GoResult (List Transaction) × Subscribers × List Request × List String :=
  if address = "" then
    (.ret [], subs, [], ["You need to define an address"])
  else if IsSubscriber subs address = false then
    (.ret [], subs, [], ["Address: " ++ address ++ " is not subscribed"])
  else
    match GetCurrentBlock node with
    | (.panics, reqs, log) => (.panics, subs, reqs, log)
    | (.ret blockNumber, reqs, log) =>
      if blockNumber = 0 then
        (.ret [], subs, reqs, log ++ ["blockNumber is 0"])
      else
        match callRPCMethod node (getBlockReq blockNumber) decodeBlock with
        | .error e =>
          (.ret [], subs, reqs ++ [getBlockReq blockNumber],
           log ++ ["error: " ++ errString e])
        | .ok block =>
          (.ret (block.Transactions.foldl
              (fun acc t => if matchTx address t then acc ++ [t] else acc) []),
           subs, reqs ++ [getBlockReq blockNumber], log)

/-- `SubscribeAddress` of `src/main.go`: rejects the empty address by
printing a message and returning `false`; otherwise delegates to
`SetSubscriber` and returns `true` (its error is always `nil`).  Result:
(returned boolean, registry after the call, lines printed). -/
def SubscribeAddress (subs : Subscribers) (address : String) :
    Bool × Subscribers × List String :=
  if address = "" then
    (false, subs, ["You need to define an address"])
  else
    match SetSubscriber subs address with
    | (subs2, some _) => (false, subs2, [])
    | (subs2, none) => (true, subs2, [])

end MainGo

/-! ## The first part_001 snapshot -/

namespace V1

/-- `GetCurrentBlock` of the first part_001 snapshot: returns
`(uint64, error)`; every failure of the RPC call or of hex parsing is
returned to the caller. -/
def GetCurrentBlock (node : Node) :
    GoResult (Except EngineError Nat) × List Request :=
  match callRPCMethod node blockNumberReq decodeHexString with
  | .error e => (.ret (.error (.call e)), [blockNumberReq])
  | .ok blockNumberHex =>
    match ParseHexUint64 blockNumberHex with
    | .panics => (.panics, [blockNumberReq])
    | .err => (.ret (.error .parse), [blockNumberReq])
    | .ok blockNumber => (.ret (.ok blockNumber), [blockNumberReq])

/-- `GetTransactions` of the first part_001 snapshot: fails with the
not-subscribed error before any network call; every downstream failure is
returned to the caller; no emptiness check in the engine (the CLI does it). -/
def GetTransactions (node : Node) (subs : Subscribers) (address : String) :
    GoResult (Except EngineError (List Transaction)) × Subscribers × List Request :=
  if IsSubscriber subs address = false then
    (.ret (.error (.notSubscribed address)), subs, [])
  else
    match GetCurrentBlock node with
    | (.panics, reqs) => (.panics, subs, reqs)
    | (.ret (.error e), reqs) => (.ret (.error e), subs, reqs)
    | (.ret (.ok blockNumber), reqs) =>
      match callRPCMethod node (getBlockReq blockNumber) decodeBlock with
      | .error e =>
        (.ret (.error (.call e)), subs, reqs ++ [getBlockReq blockNumber])
      | .ok block =>
        (.ret (.ok (block.Transactions.foldl
            (fun acc t => if matchTx address t then acc ++ [t] else acc) [])),
         subs, reqs ++ [getBlockReq blockNumber])

/-- `SubscribeAddress` of the first part_001 snapshot: no emptiness check;
delegates to `SetSubscriber` and returns `true` (its error is always `nil`). -/
def SubscribeAddress (subs : Subscribers) (address : String) :
    Bool × Subscribers :=
  match SetSubscriber subs address with
  | (subs2, some _) => (false, subs2)
  | (subs2, none) => (true, subs2)

end V1

/-! ## The second (latest) part_001 snapshot -/

namespace V2

/-- `GetCurrentBlock` of the second part_001 snapshot: textually identical
to the first snapshot's. -/
def GetCurrentBlock (node : Node) :
    GoResult (Except EngineError Nat) × List Request :=
  V1.GetCurrentBlock node

/-- `GetTransactions` of the second part_001 snapshot: NO subscription or
emptiness check in the engine (the CLI gates queries); fetches the current
block and filters its transactions. -/
def GetTransactions (node : Node) (subs : Subscribers) (address : String) :
    GoResult (Except EngineError (List Transaction)) × Subscribers × List Request :=
  match GetCurrentBlock node with
  | (.panics, reqs) => (.panics, subs, reqs)
  | (.ret (.error e), reqs) => (.ret (.error e), subs, reqs)
  | (.ret (.ok blockNumber), reqs) =>
    match callRPCMethod node (getBlockReq blockNumber) decodeBlock with
    | .error e =>
      (.ret (.error (.call e)), subs, reqs ++ [getBlockReq blockNumber])
    | .ok block =>
      (.ret (.ok (block.Transactions.foldl
          (fun acc t => if matchTx address t then acc ++ [t] else acc) [])),
       subs, reqs ++ [getBlockReq blockNumber])

/-- `SubscribeAddress` of the second part_001 snapshot:
`Subscribers[address] = true; return Subscribers[address]` — no emptiness
check; always inserts and reports `true`. -/
def SubscribeAddress (subs : Subscribers) (address : String) :
    Bool × Subscribers :=
  let subs2 := mapAssign subs address true
  (mapIndex subs2 address, subs2)

/-- `UnsubscribeAddress` of the second part_001 snapshot:
`delete(Subscribers, address); return Subscribers[address]` — returns the
post-delete lookup (the zero value `false`). -/
def UnsubscribeAddress (subs : Subscribers) (address : String) :
    Bool × Subscribers :=
  let subs2 := mapDelete subs address
  (mapIndex subs2 address, subs2)

end V2

/-! ## Helper lemmas and concrete fixtures -/

/-- The Go append-loop over a list equals `List.filter`. -/
theorem foldl_append_eq_filter {α : Type} (p : α → Bool) (l acc : List α) :
    l.foldl (fun acc t => if p t then acc ++ [t] else acc) acc =
      acc ++ l.filter p := by
  induction l generalizing acc with
  | nil => simp
  | cons x xs ih =>
    by_cases hx : p x <;> simp [List.foldl_cons, hx, ih, List.filter_cons]

/-- `IsSubscriber` returns `true` exactly when the key maps to `some true`. -/
theorem isSubscriber_eq_true_iff (m : Subscribers) (address : String) :
    IsSubscriber m address = true ↔ m address = some true := by
  unfold IsSubscriber
  cases h : m address with
  | none => simp
  | some v => cases v <;> simp

/-- A node on which every POST fails at the transport level. -/
def failNode : Node := fun _ => .postFail

/-- The empty registry. -/
def emptySubs : Subscribers := fun _ => none

/-- A registry in which exactly `"a"` is subscribed. -/
def subsA : Subscribers := fun k => if k = "a" then some true else none

/-- A registry in which exactly `"X"` is subscribed. -/
def subsX : Subscribers := fun k => if k = "X" then some true else none

/-- Example transaction from X to Y (spec §8's block fixture). -/
def txXY : Transaction := ⟨"t1", "0x5", "X", "Y", "0x1"⟩

/-- Example transaction from Z to X. -/
def txZX : Transaction := ⟨"t2", "0x5", "Z", "X", "0x1"⟩

/-- Example transaction from W to V. -/
def txWV : Transaction := ⟨"t3", "0x5", "W", "V", "0x1"⟩

/-- The spec §8 block: transactions [{X→Y}, {Z→X}, {W→V}]. -/
def exampleBlock : Block := ⟨"bh", [txXY, txZX, txWV]⟩

/-- A mocked node returning height `"0x5"` and `exampleBlock` at height 5. -/
def exampleNode : Node := fun req =>
  if req = blockNumberReq then .envelope ⟨.str "0x5", none, 1⟩
  else if req = getBlockReq 5 then .envelope ⟨.blk exampleBlock, none, 1⟩
  else .postFail

/-- A mocked node whose envelope carries a non-null `error` field together
with a `result` payload that does not decode as a hex string. -/
def errorNode : Node := fun _ => .envelope ⟨.blk ⟨"bh", []⟩, some "boom", 1⟩

/-- A mocked node answering every request with the one-character hex
string `"0"`. -/
def shortNode : Node := fun _ => .envelope ⟨.str "0", none, 1⟩

/-! ## Claims -/

/-- Claim C1, counterexample: the input `"XX10"` does not carry the `0x`
prefix, yet `ParseHexUint64` succeeds and returns 16 — the claim's "fails
with a ParseError whenever the `0x` prefix is missing" is false on the
code, which strips the first two characters without inspecting them. -/
theorem C1_counterexample :
    "XX10".data.take 2 ≠ "0x".data ∧ ParseHexUint64 "XX10" = .ok 16 := by
  constructor
  · decide
  · decide

/-- Claim C1 as amended: for inputs of length ≥ 2, `ParseHexUint64` strips
the first two characters unconditionally (never comparing them against
`"0x"`), never panics, and succeeds exactly when the remainder is a
non-empty string of hex digits whose value fits in 64 bits, returning that
base-16 value; in particular every well-formed `0x<hexdigits>` input with
value below `2^64` parses to the value of its digits, `"0x10"` to 16 and
`"0x0"` to 0. -/
theorem C1_hex_parsing :
    (∀ ds : List Char, ds ≠ [] → ds.all isHexDigit = true →
        hexListVal ds < 2 ^ 64 →
        ParseHexUint64 ⟨'0' :: 'x' :: ds⟩ = .ok (hexListVal ds))
  ∧ (∀ s : String, 2 ≤ s.data.length → ParseHexUint64 s ≠ .panics)
  ∧ (∀ s : String, ∀ v : Nat, 2 ≤ s.data.length →
      (ParseHexUint64 s = .ok v ↔
        (s.data.drop 2 ≠ [] ∧ (s.data.drop 2).all isHexDigit = true ∧
         hexListVal (s.data.drop 2) < 2 ^ 64 ∧ v = hexListVal (s.data.drop 2))))
  ∧ ParseHexUint64 "0x10" = .ok 16
  ∧ ParseHexUint64 "0x0" = .ok 0 := by
  refine ⟨?_, ?_, ?_, by decide, by decide⟩
  · intro ds hne hhex hlt
    have hp : parseUintHex64 ds = some (hexListVal ds) := by
      unfold parseUintHex64
      rw [if_neg hne, if_pos hhex, if_pos hlt]
    unfold ParseHexUint64
    rw [if_neg (by simp only [String.data, List.length_cons]; omega)]
    simp only [String.data, List.drop_succ_cons, List.drop_zero, hp]
  · intro s hlen
    unfold ParseHexUint64
    rw [if_neg (by omega)]
    cases parseUintHex64 (s.data.drop 2) <;> simp
  · intro s v hlen
    unfold ParseHexUint64 parseUintHex64
    rw [if_neg (by omega)]
    by_cases h1 : s.data.drop 2 = []
    · rw [if_pos h1]
      constructor
      · intro h
        exact absurd (show ParseOutcome.err = ParseOutcome.ok v from h)
          (by intro hc; cases hc)
      · rintro ⟨hne, -, -, -⟩
        exact absurd h1 hne
    · rw [if_neg h1]
      by_cases h2 : (s.data.drop 2).all isHexDigit = true
      · rw [if_pos h2]
        by_cases h3 : hexListVal (s.data.drop 2) < 2 ^ 64
        · rw [if_pos h3]
          constructor
          · intro h
            have h' : ParseOutcome.ok (hexListVal (s.data.drop 2)) =
                ParseOutcome.ok v := h
            exact ⟨h1, h2, h3, (ParseOutcome.ok.inj h').symm⟩
          · rintro ⟨-, -, -, hv⟩
            rw [hv]
        · rw [if_neg h3]
          constructor
          · intro h
            exact absurd (show ParseOutcome.err = ParseOutcome.ok v from h)
              (by intro hc; cases hc)
          · rintro ⟨-, -, hlt, -⟩
            exact absurd hlt h3
      · rw [if_neg h2]
        constructor
        · intro h
          exact absurd (show ParseOutcome.err = ParseOutcome.ok v from h)
            (by intro hc; cases hc)
        · rintro ⟨-, hall, -, -⟩
          exact absurd hall h2

/-- Claim C1 witness: the amended theorem applied to the digit string
`"10"`, evaluating to 16. -/
theorem C1_hex_parsing_witness :
    ParseHexUint64 ⟨['0', 'x', '1', '0']⟩ = .ok 16 := by
  have h := C1_hex_parsing.1 ['1', '0'] (by decide) (by decide) (by decide)
  exact h.trans (by decide)

/-- Claim C2, counterexample: with a node whose POST fails at the
transport level, `GetCurrentBlock` of `src/main.go` returns the plain
substitute value 0 (its return type has no error channel) and merely
prints the error — the failure is not surfaced to the caller. -/
theorem C2_counterexample :
    (MainGo.GetCurrentBlock failNode).1 = .ret 0 ∧
    (MainGo.GetCurrentBlock failNode).2.2 =
      ["error: " ++ errString .transport] := by
  constructor
  · rfl
  · rfl

/-- Claim C2 as amended: in the part_001 evolution whose
`GetCurrentBlock` returns `(uint64, error)`, every failure (transport,
envelope decode, node-reported RPC error, hex parse) is returned to the
immediate caller as a typed error, and a value is returned only when every
step succeeded; in the `src/main.go` evolution the same operation instead
logs the failure and returns the substitute value 0. -/
theorem C2_error_propagation (node : Node) :
    (∀ e, callRPCMethod node blockNumberReq decodeHexString = .error e →
        (V1.GetCurrentBlock node).1 = .ret (.error (.call e)))
  ∧ (∀ s, callRPCMethod node blockNumberReq decodeHexString = .ok s →
        ParseHexUint64 s = .err →
        (V1.GetCurrentBlock node).1 = .ret (.error .parse))
  ∧ (∀ v, (V1.GetCurrentBlock node).1 = .ret (.ok v) →
        ∃ s, callRPCMethod node blockNumberReq decodeHexString = .ok s ∧
          ParseHexUint64 s = .ok v) := by
  refine ⟨?_, ?_, ?_⟩
  · intro e he
    unfold V1.GetCurrentBlock
    rw [he]
  · intro s hs hp
    unfold V1.GetCurrentBlock
    simp only [hs, hp]
  · intro v hv
    unfold V1.GetCurrentBlock at hv
    cases hc : callRPCMethod node blockNumberReq decodeHexString with
    | error e => simp [hc] at hv
    | ok s =>
      cases hp : ParseHexUint64 s with
      | panics => simp [hc, hp] at hv
      | err => simp [hc, hp] at hv
      | ok w =>
        simp [hc, hp] at hv
        exact ⟨s, rfl, hp.trans (by rw [hv])⟩

/-- Claim C2 witness: the amended theorem applied to the always-failing
transport node. -/
theorem C2_error_propagation_witness :
    (V1.GetCurrentBlock failNode).1 = .ret (.error (.call .transport)) :=
  (C2_error_propagation failNode).1 .transport rfl

/-- Claim C3, counterexample: in the latest part_001 evolution the engine
performs no subscription check — for the non-empty, unsubscribed address
`"A"` it still issues the `eth_blockNumber` round trip and surfaces the
transport failure, not a not-subscribed error. -/
theorem C3_counterexample :
    IsSubscriber emptySubs "A" = false ∧
    (V2.GetTransactions failNode emptySubs "A").2.2 = [blockNumberReq] ∧
    (V2.GetTransactions failNode emptySubs "A").1 =
      .ret (.error (.call .transport)) := by
  refine ⟨rfl, rfl, rfl⟩

/-- Claim C3 as amended: in the `src/main.go` engine and in the first
part_001 snapshot, a non-empty address that is not subscribed is rejected
before any network call is issued (the request trace is empty and the
result does not depend on the node): main.go logs
`Address: ... is not subscribed` and returns an empty slice, the first
snapshot returns the typed not-subscribed error; in the latest part_001
evolution the engine performs no subscription check (gating lives in the
CLI) and issues the RPC. -/
theorem C3_not_subscribed_gating (node : Node) (subs : Subscribers)
    (address : String) (hne : address ≠ "")
    (hsub : IsSubscriber subs address = false) :
    MainGo.GetTransactions node subs address =
      (.ret [], subs, [], ["Address: " ++ address ++ " is not subscribed"])
  ∧ V1.GetTransactions node subs address =
      (.ret (.error (.notSubscribed address)), subs, []) := by
  constructor
  · unfold MainGo.GetTransactions
    rw [if_neg hne, if_pos hsub]
  · unfold V1.GetTransactions
    rw [if_pos hsub]

/-- Claim C3 witness: the amended theorem applied to the unsubscribed
address `"A"` over the empty registry and the failing transport node. -/
theorem C3_not_subscribed_gating_witness :
    MainGo.GetTransactions failNode emptySubs "A" =
      (.ret [], emptySubs, [], ["Address: A is not subscribed"]) :=
  (C3_not_subscribed_gating failNode emptySubs "A" (by decide) rfl).1

/-- Claim C5, confirmed: whenever the node's envelope decodes and carries
a non-null `error` field, `callRPCMethod` fails with the RPC error
carrying that payload's string representation, for EVERY result decoder —
in particular the `result` payload is never decoded first, so the RPC
error takes precedence over any parse failure of the result. -/
theorem C5_rpc_error_precedence {α : Type} (node : Node) (req : Request)
    (decode : Payload → Option α) (p : Payload) (msg : String) (i : Int)
    (henv : node req = .envelope ⟨p, some msg, i⟩) :
    callRPCMethod node req decode = .error (.rpc msg) := by
  unfold callRPCMethod
  rw [henv]

/-- Claim C5 witness: a node answering with an envelope whose `error`
field is `"boom"` and whose `result` payload does not decode as a hex
string; the call fails with the RPC error, not a parse error. -/
theorem C5_rpc_error_precedence_witness :
    callRPCMethod errorNode blockNumberReq decodeHexString =
      .error (.rpc "boom") :=
  C5_rpc_error_precedence errorNode blockNumberReq decodeHexString
    (.blk ⟨"bh", []⟩) "boom" 1 rfl

/-- Claim C4, confirmed: for a subscribed non-empty address and a node
returning a parseable non-zero height and a block for it, both the
`src/main.go` engine and the first part_001 snapshot return exactly
`filter (From == address || To == address)` of the block's transaction
list — a subsequence of the block's transactions in their original order. -/
theorem C4_filter_semantics (node : Node) (subs : Subscribers)
    (address hx : String) (v : Nat) (B : Block) (i j : Int)
    (hne : address ≠ "") (hsub : IsSubscriber subs address = true)
    (hheight : node blockNumberReq = .envelope ⟨.str hx, none, i⟩)
    (hparse : ParseHexUint64 hx = .ok v) (hv : v ≠ 0)
    (hblock : node (getBlockReq v) = .envelope ⟨.blk B, none, j⟩) :
    (MainGo.GetTransactions node subs address).1 =
      .ret (B.Transactions.filter (matchTx address))
  ∧ (V1.GetTransactions node subs address).1 =
      .ret (.ok (B.Transactions.filter (matchTx address)))
  ∧ (B.Transactions.filter (matchTx address)).Sublist B.Transactions := by
  have hc1 : callRPCMethod node blockNumberReq decodeHexString = .ok hx := by
    unfold callRPCMethod
    rw [hheight]
    rfl
  have hc2 : callRPCMethod node (getBlockReq v) decodeBlock = .ok B := by
    unfold callRPCMethod
    rw [hblock]
    rfl
  have hcb : MainGo.GetCurrentBlock node = (.ret v, [blockNumberReq], []) := by
    unfold MainGo.GetCurrentBlock
    simp only [hc1, hparse]
  have hcb1 : V1.GetCurrentBlock node = (.ret (.ok v), [blockNumberReq]) := by
    unfold V1.GetCurrentBlock
    simp only [hc1, hparse]
  refine ⟨?_, ?_, List.filter_sublist _⟩
  · unfold MainGo.GetTransactions
    rw [if_neg hne, if_neg (by simp [hsub])]
    simp only [hcb, hc2]
    rw [if_neg hv]
    simp [foldl_append_eq_filter]
  · unfold V1.GetTransactions
    rw [if_neg (by simp [hsub])]
    simp only [hcb1, hc2]
    simp [foldl_append_eq_filter]

/-- Claim C4 witness: the spec §8 fixture — height `"0x5"`, a block with
transactions [{X→Y}, {Z→X}, {W→V}], querying the subscribed address `X`
returns the first and second transactions in order, excluding the third. -/
theorem C4_filter_semantics_witness :
    (MainGo.GetTransactions exampleNode subsX "X").1 = .ret [txXY, txZX] := by
  have h := C4_filter_semantics exampleNode subsX "X" "0x5" 5 exampleBlock 1 1
    (by decide) rfl rfl (by decide) (by decide) rfl
  exact h.1.trans (by decide)

/-- Claim C6, counterexample: in the latest part_001 evolution,
`SubscribeAddress` performs no emptiness check — subscribing the empty
string reports success and adds it to the registry. -/
theorem C6_counterexample :
    (V2.SubscribeAddress emptySubs "").1 = true ∧
    mapIndex (V2.SubscribeAddress emptySubs "").2 "" = true :=
  ⟨rfl, rfl⟩

/-- Claim C6 as amended: in the `src/main.go` engine, the empty-string
address is rejected by subscribe and by the transaction query before any
network call or registry mutation, by printing a message and returning
`false` / the empty slice (no typed InvalidInputError value exists);
main.go has no unsubscribe operation, and in the latest part_001 evolution
subscribe and unsubscribe perform no emptiness check, so subscribing the
empty string adds it to the registry and reports success. -/
theorem C6_empty_address (subs : Subscribers) (node : Node) :
    MainGo.SubscribeAddress subs "" =
      (false, subs, ["You need to define an address"])
  ∧ MainGo.GetTransactions node subs "" =
      (.ret [], subs, [], ["You need to define an address"]) := by
  constructor
  · unfold MainGo.SubscribeAddress
    rw [if_pos rfl]
  · unfold MainGo.GetTransactions
    rw [if_pos rfl]

/-- Claim C7, confirmed: `SetSubscriber` makes `IsSubscriber` true for the
address and reports success (`nil` error); subscribing twice yields the
same map as subscribing once, and subscribing an already-subscribed
address leaves the map unchanged; the latest evolution's
`SubscribeAddress` likewise always reports `true`, makes the address a
member, and is idempotent on the registry. -/
theorem C7_subscribe_idempotent (m : Subscribers) (address : String) :
    IsSubscriber (SetSubscriber m address).1 address = true
  ∧ (SetSubscriber m address).2 = none
  ∧ (SetSubscriber (SetSubscriber m address).1 address).1 =
      (SetSubscriber m address).1
  ∧ (IsSubscriber m address = true → (SetSubscriber m address).1 = m)
  ∧ (V2.SubscribeAddress m address).1 = true
  ∧ mapIndex (V2.SubscribeAddress m address).2 address = true
  ∧ (V2.SubscribeAddress (V2.SubscribeAddress m address).2 address).2 =
      (V2.SubscribeAddress m address).2 := by
  refine ⟨?_, rfl, ?_, ?_, ?_, ?_, ?_⟩
  · simp [IsSubscriber, SetSubscriber, mapAssign]
  · funext x
    simp only [SetSubscriber, mapAssign]
    by_cases hx : x = address <;> simp [hx]
  · intro h
    have hm : m address = some true := (isSubscriber_eq_true_iff m address).1 h
    funext x
    simp only [SetSubscriber, mapAssign]
    by_cases hx : x = address
    · rw [if_pos hx, hx, hm]
    · rw [if_neg hx]
  · simp [V2.SubscribeAddress, mapIndex, mapAssign]
  · simp [V2.SubscribeAddress, mapIndex, mapAssign]
  · funext x
    simp only [V2.SubscribeAddress, mapAssign]
    by_cases hx : x = address <;> simp [hx]

/-- Claim C7 witness: the theorem applied to the registry containing
exactly `"a"` — subscribing `"a"` again leaves it a member and leaves the
map unchanged. -/
theorem C7_subscribe_idempotent_witness :
    IsSubscriber (SetSubscriber subsA "a").1 "a" = true ∧
    (SetSubscriber subsA "a").1 = subsA :=
  ⟨(C7_subscribe_idempotent subsA "a").1,
   (C7_subscribe_idempotent subsA "a").2.2.2.1 rfl⟩

/-- Claim C8, confirmed: unsubscribing after subscribing makes membership
false (the registry does not resurrect a prior truthy value on delete:
`UnsubscribeAddress` returns the post-delete lookup, always `false`), and
unsubscribing a non-member leaves the membership set pointwise unchanged. -/
theorem C8_unsubscribe (m : Subscribers) (address : String) :
    mapIndex
      (V2.UnsubscribeAddress (V2.SubscribeAddress m address).2 address).2
      address = false
  ∧ (V2.UnsubscribeAddress m address).1 = false
  ∧ (mapIndex m address = false →
      ∀ x, mapIndex (V2.UnsubscribeAddress m address).2 x = mapIndex m x) := by
  refine ⟨?_, ?_, ?_⟩
  · simp [V2.UnsubscribeAddress, V2.SubscribeAddress, mapIndex, mapDelete]
  · simp [V2.UnsubscribeAddress, mapIndex, mapDelete]
  · intro h x
    simp only [V2.UnsubscribeAddress, mapIndex, mapDelete]
    by_cases hx : x = address
    · rw [if_pos hx, hx]
      simpa [mapIndex] using h.symm
    · rw [if_neg hx]

/-- Claim C8 witness: subscribe `"a"` then unsubscribe `"a"` over the
empty registry yields non-membership; deleting the absent `"b"` leaves its
membership unchanged. -/
theorem C8_unsubscribe_witness :
    mapIndex
      (V2.UnsubscribeAddress (V2.SubscribeAddress emptySubs "a").2 "a").2
      "a" = false
  ∧ mapIndex (V2.UnsubscribeAddress emptySubs "b").2 "b" =
      mapIndex emptySubs "b" :=
  ⟨(C8_unsubscribe emptySubs "a").1,
   (C8_unsubscribe emptySubs "b").2.2 rfl "b"⟩

/-- Claim C9, confirmed: the transaction query of every evolution returns
the registry it was given, on every path — in particular on every error
path (empty address, not subscribed, transport failure, envelope or RPC
error, parse failure, and even the height-0 substitute path); the
`GetCurrentBlock` operations never touch the registry at all (they take no
reference to it). -/
theorem C9_failure_preserves_registry (node : Node) (subs : Subscribers)
    (address : String) :
    (MainGo.GetTransactions node subs address).2.1 = subs
  ∧ (V1.GetTransactions node subs address).2.1 = subs
  ∧ (V2.GetTransactions node subs address).2.1 = subs := by
  refine ⟨?_, ?_, ?_⟩
  · unfold MainGo.GetTransactions
    repeat' split
    all_goals rfl
  · unfold V1.GetTransactions
    repeat' split
    all_goals rfl
  · unfold V2.GetTransactions
    repeat' split
    all_goals rfl

/-- Claim C10, confirmed: on any input shorter than two characters
(including the empty string), `ParseHexUint64` hits the slice bounds
violation `hexStr[2:]` and panics instead of returning an error, so a node
response carrying such a string makes `GetCurrentBlock` panic (crashing
the call) in both evolutions rather than producing a ParseError. -/
theorem C10_short_input_panics (s : String) (hlen : s.data.length < 2) :
    ParseHexUint64 s = .panics
  ∧ (∀ node : Node, ∀ i : Int,
      node blockNumberReq = .envelope ⟨.str s, none, i⟩ →
      (MainGo.GetCurrentBlock node).1 = .panics ∧
      (V1.GetCurrentBlock node).1 = .panics) := by
  have hp : ParseHexUint64 s = .panics := by
    unfold ParseHexUint64
    rw [if_pos hlen]
  refine ⟨hp, ?_⟩
  intro node i henv
  have hc : callRPCMethod node blockNumberReq decodeHexString = .ok s := by
    unfold callRPCMethod
    rw [henv]
    rfl
  constructor
  · unfold MainGo.GetCurrentBlock
    simp [hc, hp]
  · unfold V1.GetCurrentBlock
    simp [hc, hp]

/-- Claim C10 witness: the one-character response `"0"` panics the parser
and crashes `GetCurrentBlock` on a node answering with it. -/
theorem C10_short_input_panics_witness :
    ParseHexUint64 "0" = .panics ∧
    (V1.GetCurrentBlock shortNode).1 = .panics := by
  have h := C10_short_input_panics "0" (by decide)
  exact ⟨h.1, (h.2 shortNode 1 rfl).2⟩
